import Mathlib

/-!
Shallow embedding of the data-access core of `hpc-bottleneck-detector`
(Python).  Modelled modules:

* `data/manager.py`        — `DataManager` (wide metrics table + queries)
* `data/job_context.py`    — `JobContext` (static hardware metadata)
* `data_sources/csv_source.py`  — `CSVDataSource.fetch_job_data`
* `data_sources/xbat_source.py` — `XBATDataSource` (validation, 401 retry,
  best-effort context enrichment)

A pandas `DataFrame` row of the wide table is a `Row`: the identifying
columns `jobId, group, metric, trace` plus the ordered numeric
`interval 0 .. interval N` columns, kept here as `values : List ℚ`
(Python floats are modelled as rationals).  Python exceptions are an
explicit `PyErr` sum; fallible code returns `Except PyErr`.
-/

/-- A Python exception value, restricted to the classes this code raises
or catches: `ValueError`, `pandas.errors.ParserError` (a `ValueError`
subclass raised by `pd.read_csv`), `IOError`, and any other exception. -/
inductive PyErr where
  | valueError (msg : String)
  | parserError (msg : String)
  | ioError (msg : String)
  | otherError (msg : String)
deriving DecidableEq, Repr

/-- `str(e)` for the modelled exceptions: the carried message. -/
def PyErr.message : PyErr → String
  | .valueError m => m
  | .parserError m => m
  | .ioError m => m
  | .otherError m => m

/-- `True` exactly on the `IOError` constructor. -/
def PyErr.isIOError : PyErr → Bool
  | .ioError _ => true
  | _ => false

/-- `True` exactly on the `ValueError` constructor (the spec's
`NotFoundError` class in this codebase). -/
def PyErr.isValueError : PyErr → Bool
  | .valueError _ => true
  | _ => false

/-- Boolean success test on `Except` (mirrors "the call did not raise"). -/
def Except.isOkB : Except ε α → Bool
  | .ok _ => true
  | .error _ => false

/-- One row of the wide metrics table: identifying columns plus the
ordered `interval i` columns (`values`). -/
structure Row where
  jobId : String
  group : String
  metric : String
  trace : String
  values : List ℚ
deriving DecidableEq, Repr

namespace DataModel

/-- The row-matching condition built in `DataManager.get_metric`:
`(group == g) & (metric == m)`, and `(trace == t)` when a trace is
supplied (`trace is not None`). -/
def matchesSpec (g m : String) (tr : Option String) (r : Row) : Bool :=
  r.group == g && r.metric == m &&
    (match tr with
     | none => true
     | some t => r.trace == t)

end DataModel

/-- Insertion into a Python `dict` modelled as an ordered association
list: an existing key keeps its position and gets the new value, a new
key is appended. -/
def dictInsert (d : List (String × α)) (k : String) (v : α) :
    List (String × α) :=
  if d.any (fun p => p.1 == k) then
    d.map (fun p => if p.1 == k then (k, v) else p)
  else
    d ++ [(k, v)]

/-- Keep-first deduplication with an explicit `seen` accumulator. -/
def dropDupAux [DecidableEq α] (seen : List α) : List α → List α
  | [] => []
  | x :: xs =>
    if x ∈ seen then dropDupAux seen xs
    else x :: dropDupAux (x :: seen) xs

/-- pandas `drop_duplicates()` (and Python set formation where only the
element set matters): keep the first occurrence of each element. -/
def dropDuplicates [DecidableEq α] (l : List α) : List α :=
  dropDupAux [] l

/-- `JobContext` node-hardware value as stored after filtering by
`_extract_node_info` (from `job_context.py`). -/
structure NodeInfo where
  cpu : Option (List (String × String))
  memory : Option (List (String × String))
  benchmarks : Option (List (String × ℚ))
  os : Option (List (String × Option String))
deriving DecidableEq, Repr

/-- `JobContext.__init__` state: job id, flat job metadata
(opaque values kept as strings, the `nodes` hostname→hash mapping kept
separately), and the node-hash → filtered hardware mapping. -/
structure JobContext where
  job_id : String
  job_metadata : List (String × Option String)
  metadata_nodes : List (String × Option String)
  node_hardware : List (String × NodeInfo)
deriving DecidableEq, Repr

/-- `DataManager.__init__` state: the wide table (`job_data`) and the
optional static context (`job_context`). -/
structure DataManager where
  job_data : List Row
  job_context : Option JobContext
deriving DecidableEq, Repr

namespace DataManager

open DataModel

/-- `self.job_id`: extracted from the first row of `job_data`
(`str(job_data['jobId'].iloc[0])`), `None` for an empty table. -/
def jobId (dm : DataManager) : Option String :=
  match dm.job_data with
  | [] => none
  | r :: _ => some r.jobId

/-- `DataManager.get_metric(group, metric, trace=None)`: filter rows by
exact match on group and metric (and trace when given); raise
`ValueError` if no row matches; else return the interval columns of the
first matching row (`metric_data[interval_cols].iloc[0]`). -/
def getMetric (dm : DataManager) (g m : String) (tr : Option String) :
    Except PyErr (List ℚ) :=
  match dm.job_data.filter (matchesSpec g m tr) with
  | [] => .error (.valueError
      s!"Metric not found: group=\x27{g}\x27, metric=\x27{m}\x27")
  | r :: _ => .ok r.values

/-- One metric spec as passed to `get_metrics`: a dict with `group`,
`metric` and optional `trace`. -/
structure MetricSpec where
  group : String
  metric : String
  trace : Option String
deriving DecidableEq, Repr

/-- Python truthiness of `trace` in `if trace:` — false for `None` and
for the empty string. -/
def traceTruthy : Option String → Bool
  | none => false
  | some t => t != ""

/-- Python `trace.replace(' ', '_')`: the pattern is a single
character, so this is a per-character substitution. -/
def replaceSpaces (t : String) : String :=
  String.mk (t.data.map (fun c => if c = ' ' then '_' else c))

/-- The descriptive key synthesized in `get_metrics`:
`f"{group}_{metric}"`, plus `"_" + trace.replace(' ', '_')` when the
trace is truthy. -/
def synthKey (s : MetricSpec) : String :=
  let base := s.group ++ "_" ++ s.metric
  match s.trace with
  | some t => if t != "" then base ++ "_" ++ replaceSpaces t else base
  | none => base

/-- `DataManager.get_metrics(metric_specs)`: for each spec look the
metric up, catching `ValueError` (skip); successful lookups are stored
in the result dict under the synthesized key. -/
def getMetrics (dm : DataManager) (specs : List MetricSpec) :
    List (String × List ℚ) :=
  specs.foldl
    (fun result s =>
      match dm.getMetric s.group s.metric s.trace with
      | .ok series => dictInsert result (synthKey s) series
      | .error _ => result)
    []

/-- Whether a spec resolves (its `get_metric` lookup does not raise). -/
def resolvable (dm : DataManager) (s : MetricSpec) : Bool :=
  (dm.getMetric s.group s.metric s.trace).isOkB

/-- `DataManager.list_available_metrics()`:
`job_data[['group','metric','trace']].drop_duplicates().reset_index(drop=True)`. -/
def listAvailableMetrics (dm : DataManager) : List (String × String × String) :=
  dropDuplicates (dm.job_data.map (fun r => (r.group, r.metric, r.trace)))

/-- `DataManager.get_all_time_series()`: a copy of the whole table. -/
def getAllTimeSeries (dm : DataManager) : List Row :=
  dm.job_data

end DataManager

/-! ## `job_context.py`: raw hardware responses and `JobContext` -/

/-- `_CPU_KEYS`: the CPU fields kept by `_filter_cpu`. -/
def cpuKeys : List String :=
  ["Model name", "CPU(s)", "Core(s) per socket", "Socket(s)",
   "Thread(s) per core", "NUMA node(s)", "CPU max MHz",
   "L1d cache", "L1i cache", "L2 cache", "L3 cache",
   "Architecture", "Vendor ID"]

/-- `_MEMORY_KEYS`: the memory fields kept by `_filter_memory`. -/
def memoryKeys : List String :=
  ["Type", "Size", "Speed", "Maximum Capacity",
   "Number Of Installed Devices", "Error Correction Type"]

/-- A raw per-node hardware descriptor as returned by the
`/api/v1/nodes` endpoint: optional `cpu`, `memory`, `benchmarks` and
`os` sections (dicts modelled as association lists; benchmark values
are numeric). -/
structure NodeRaw where
  cpu : Option (List (String × String))
  memory : Option (List (String × String))
  benchmarks : Option (List (String × ℚ))
  os : Option (List (String × String))
deriving DecidableEq, Repr

/-- `_filter_cpu`: `{k: cpu_raw[k] for k in _CPU_KEYS if k in cpu_raw}`. -/
def filterCpu (raw : List (String × String)) : List (String × String) :=
  cpuKeys.filterMap (fun k => (raw.lookup k).map (fun v => (k, v)))

/-- `_filter_memory`: `{k: mem_raw[k] for k in _MEMORY_KEYS if k in mem_raw}`. -/
def filterMemory (raw : List (String × String)) : List (String × String) :=
  memoryKeys.filterMap (fun k => (raw.lookup k).map (fun v => (k, v)))

/-- `_extract_node_info`: keep filtered `cpu`/`memory` sections, a copy
of `benchmarks`, and the three `os` fields fetched with `.get` (absent
fields become `None`). -/
def extractNodeInfo (raw : NodeRaw) : NodeInfo where
  cpu := raw.cpu.map filterCpu
  memory := raw.memory.map filterMemory
  benchmarks := raw.benchmarks
  os := raw.os.map (fun o =>
    [("distro", o.lookup "distro"), ("kernel", o.lookup "kernel"),
     ("architecture", o.lookup "architecture")])

namespace JobContext

/-- `JobContext.get_metadata(key, default)`. -/
def getMetadata (ctx : JobContext) (key : String)
    (default : Option String) : Option String :=
  match ctx.job_metadata.lookup key with
  | some v => v
  | none => default

/-- `JobContext.get_node_hashes()`: the keys of `node_hardware`. -/
def getNodeHashes (ctx : JobContext) : List String :=
  ctx.node_hardware.map Prod.fst

/-- `JobContext.get_node_info(node_hash)`. -/
def getNodeInfo (ctx : JobContext) (node_hash : String) : Option NodeInfo :=
  ctx.node_hardware.lookup node_hash

/-- The list comprehension in `get_benchmark`: the value of `key` from
every node-hardware entry that has a `benchmarks` section containing
`key`, in `node_hardware` order. -/
def benchValues (ctx : JobContext) (key : String) : List ℚ :=
  ctx.node_hardware.filterMap (fun p =>
    match p.2.benchmarks with
    | none => none
    | some b => b.lookup key)

/-- `JobContext.get_benchmark(key, aggregate="mean")`: `None` when no
node reports `key`; else `min`/`max` of the collected values when the
aggregate string is `"min"`/`"max"`, and their arithmetic mean
otherwise. -/
def getBenchmark (ctx : JobContext) (key : String)
    (aggregate : String) : Option ℚ :=
  match benchValues ctx key with
  | [] => none
  | v :: vs =>
    if aggregate == "min" then some (vs.foldl min v)
    else if aggregate == "max" then some (vs.foldl max v)
    else some ((v :: vs).sum / ((v :: vs).length : ℚ))

/-- `JobContext.get_cpu_info(key)`: the field from the first node entry
that has a `cpu` section. -/
def getCpuInfo (ctx : JobContext) (key : String) : Option String :=
  match ctx.node_hardware.find? (fun p => p.2.cpu.isSome) with
  | some p => p.2.cpu.bind (fun c => c.lookup key)
  | none => none

/-- `JobContext.get_memory_info(key)`: the field from the first node
entry that has a `memory` section. -/
def getMemoryInfo (ctx : JobContext) (key : String) : Option String :=
  match ctx.node_hardware.find? (fun p => p.2.memory.isSome) with
  | some p => p.2.memory.bind (fun m => m.lookup key)
  | none => none

end JobContext

/-- One element of the `data` list of `GET /api/v1/jobs?short=true`:
the fields `from_xbat` reads (`.get` on absent keys yields `None`,
modelled as `Option`); `nodes` maps hostname to `meta.get("hash")`. -/
structure JobEntry where
  jobId : Option String
  runtime : Option String
  capturetime : Option String
  jobState : Option String
  runNr : Option String
  iteration : Option String
  variantNameJobscript : Option String
  variantNameTop : Option String
  nodes : List (String × Option String)
deriving DecidableEq, Repr

/-- Python `a or b` on optional strings: `None` and `""` are falsy. -/
def pyOrStr (a b : Option String) : Option String :=
  match a with
  | some s => if s != "" then some s else b
  | none => b

/-- Python `str(x)` on an optional string: `str(None) = "None"`. -/
def pyStr : Option String → String
  | none => "None"
  | some s => s

/-- `JobContext.from_xbat(job_id, job_entry, node_hardware_raw)`:
flatten the job-level fields into `job_metadata` (with the
hostname→hash `nodes` mapping), then build `node_hardware` from every
truthy hash of that mapping that exists in the raw hardware response
(duplicate hashes collapse onto one dict entry). -/
def JobContext.fromXbat (job_id : String) (e : JobEntry)
    (node_hardware_raw : List (String × NodeRaw)) : JobContext :=
  let variant := pyOrStr e.variantNameJobscript e.variantNameTop
  let metadata : List (String × Option String) :=
    [("runtime", e.runtime), ("capturetime", e.capturetime),
     ("jobState", e.jobState), ("runNr", e.runNr),
     ("iteration", e.iteration), ("variantName", variant)]
  let hardware : List (String × NodeInfo) :=
    e.nodes.foldl
      (fun d p =>
        match p.2 with
        | none => d
        | some h =>
          if h != "" then
            match node_hardware_raw.lookup h with
            | none => d
            | some nr => dictInsert d h (extractNodeInfo nr)
          else d)
      []
  { job_id := job_id, job_metadata := metadata,
    metadata_nodes := e.nodes, node_hardware := hardware }

/-! ## `csv_source.py`: `CSVDataSource.fetch_job_data` -/

namespace CSVDataSource

/-- The `try` body of `CSVDataSource.fetch_job_data`: read (and parse)
the CSV — its outcome is the `readResult` argument, since file I/O is
ambient — filter rows whose `jobId` (as string) equals `str(job_id)`,
raise `ValueError` when none remain, else wrap the filtered,
index-reset rows in a `DataManager` with no context. -/
def fetchJobDataBody (filePath : String)
    (readResult : Except PyErr (List Row)) (job_id : String) :
    Except PyErr DataManager :=
  match readResult with
  | .error e => .error e
  | .ok df =>
    let job_data := df.filter (fun r => r.jobId == job_id)
    if job_data = [] then
      .error (.valueError s!"Job ID \x27{job_id}\x27 not found in {filePath}")
    else
      .ok { job_data := job_data, job_context := none }

/-- `CSVDataSource.fetch_job_data(job_id)`: run the body under the two
handlers — `except pd.errors.ParserError` re-raises as a parse
`IOError`, and the blanket `except Exception` re-raises anything else
(including the not-found `ValueError`) as a read `IOError`. -/
def fetchJobData (filePath : String)
    (readResult : Except PyErr (List Row)) (job_id : String) :
    Except PyErr DataManager :=
  match fetchJobDataBody filePath readResult job_id with
  | .ok dm => .ok dm
  | .error (.parserError m) =>
    .error (.ioError s!"Failed to parse CSV file {filePath}: {m}")
  | .error e =>
    let msg := e.message
    .error (.ioError s!"Failed to read CSV file {filePath}: {msg}")

end CSVDataSource

/-! ## `xbat_source.py`: validation, 401 retry, context enrichment -/

/-- A transport response: HTTP status line and body text. -/
structure HttpResponse where
  status : Nat
  text : String
deriving DecidableEq, Repr

/-- A transport response whose body is consumed via `resp.json()`:
`json = none` models a body on which `.json()` raises. -/
structure JsonResp (β : Type) where
  status : Nat
  json : Option β
deriving DecidableEq, Repr

/-- The parsed payload of `GET /api/v1/jobs?short=true`: `.get("data",
[])` — `none` models a payload without the `data` key. -/
structure JobsPayload where
  data : Option (List JobEntry)
deriving DecidableEq, Repr

namespace XBATDataSource

/-- The argument-combination checks at the top of
`XBATDataSource.__init__`: `metric` set without `group`, and level
`"node"` without a `node`, each raise `ValueError` immediately. -/
def validateArgs (group metric level node : String) :
    Except PyErr Unit :=
  if group == "" && metric != "" then
    .error (.valueError
      "\x27metric\x27 must be empty when \x27group\x27 is not set.")
  else if level == "node" && node == "" then
    .error (.valueError
      "\x27node\x27 must be provided when level is \x27node\x27.")
  else
    .ok ()

/-- `_find_job_entry(job_id)`: issue the jobs-listing request (a raised
transport exception is the `Except.error` of `jobsCall`), return `None`
on a non-200 status, parse the JSON (raising on a malformed body), and
scan `data` for the entry whose `str(jobId)` equals `str(job_id)`. -/
def findJobEntry (jobsCall : Except PyErr (JsonResp JobsPayload))
    (job_id : String) : Except PyErr (Option JobEntry) :=
  match jobsCall with
  | .error e => .error e
  | .ok resp =>
    if resp.status ≠ 200 then
      .ok none
    else
      match resp.json with
      | none => .error (.valueError "JSONDecodeError")
      | some payload =>
        .ok ((payload.data.getD []).find?
          (fun e => pyStr e.jobId == job_id))

/-- `_fetch_node_hardware(node_hashes)`: issue the nodes request,
return `{}` on a non-200 status, else parse the JSON (raising on a
malformed body). -/
def fetchNodeHardware
    (nodesCall : Except PyErr (JsonResp (List (String × NodeRaw)))) :
    Except PyErr (List (String × NodeRaw)) :=
  match nodesCall with
  | .error e => .error e
  | .ok resp =>
    if resp.status ≠ 200 then
      .ok []
    else
      match resp.json with
      | none => .error (.valueError "JSONDecodeError")
      | some m => .ok m

/-- The `list({meta.get("hash") for meta in nodes.values() if
meta.get("hash")})` set of truthy node hashes of a job entry (set
order represented by first occurrence). -/
def nodeHashSet (e : JobEntry) : List String :=
  dropDuplicates (e.nodes.filterMap (fun p =>
    match p.2 with
    | some h => if h != "" then some h else none
    | none => none))

/-- The `try` body of `_fetch_job_context`: locate the job entry
(`None` → no context), collect its truthy node hashes (empty → no
context), fetch the raw hardware, and build the `JobContext`. -/
def fetchJobContextBody (jobsCall : Except PyErr (JsonResp JobsPayload))
    (nodesCall : Except PyErr (JsonResp (List (String × NodeRaw))))
    (job_id : String) : Except PyErr (Option JobContext) :=
  match findJobEntry jobsCall job_id with
  | .error e => .error e
  | .ok none => .ok none
  | .ok (some entry) =>
    if nodeHashSet entry = [] then
      .ok none
    else
      match fetchNodeHardware nodesCall with
      | .error e => .error e
      | .ok raw => .ok (some (JobContext.fromXbat job_id entry raw))

/-- `_fetch_job_context(job_id)`: the body under the blanket
`except Exception: return None` — best-effort, never fatal. -/
def fetchJobContext (jobsCall : Except PyErr (JsonResp JobsPayload))
    (nodesCall : Except PyErr (JsonResp (List (String × NodeRaw))))
    (job_id : String) : Option JobContext :=
  match fetchJobContextBody jobsCall nodesCall job_id with
  | .ok v => v
  | .error _ => none

/-- The tail of `fetch_job_data` applied to a measurement response:
404 → `ValueError` (not found); any other non-200 → `IOError` with the
status and the first 200 characters of the body; 200 → parse the CSV
text (any parse exception re-raised as `IOError`), then attach the
best-effort job context and wrap in a `DataManager`. -/
def handleMeasurementResponse (parseCsv : String → Except PyErr (List Row))
    (response : HttpResponse)
    (jobsCall : Except PyErr (JsonResp JobsPayload))
    (nodesCall : Except PyErr (JsonResp (List (String × NodeRaw))))
    (job_id : String) : Except PyErr DataManager :=
  if response.status = 404 then
    .error (.valueError
      s!"Job ID \x27{job_id}\x27 or the requested group/metric/level combination was not found on the XBAT server.")
  else if response.status ≠ 200 then
    let code := response.status
    let snippet := response.text.take 200
    .error (.ioError s!"XBAT API returned HTTP {code}: {snippet}")
  else
    match parseCsv response.text with
    | .error exc =>
      let msg := exc.message
      .error (.ioError s!"Failed to parse CSV response from XBAT: {msg}")
    | .ok df =>
      .ok { job_data := df,
            job_context := fetchJobContext jobsCall nodesCall job_id }

/-- `XBATDataSource.fetch_job_data(job_id)` over an explicit transport:
`resp1` is the first measurement response; on HTTP 401 a fresh token is
requested (`grantToken` is the `access_token` field of the grant
response — `none` raises `IOError`) and the request is retried once,
yielding `resp2`.  The second component counts token-grant requests
made during the call. -/
def fetchJobData (parseCsv : String → Except PyErr (List Row))
    (resp1 resp2 : HttpResponse) (grantToken : Option String)
    (jobsCall : Except PyErr (JsonResp JobsPayload))
    (nodesCall : Except PyErr (JsonResp (List (String × NodeRaw))))
    (job_id : String) : Except PyErr DataManager × Nat :=
  if resp1.status = 401 then
    match grantToken with
    | none =>
      (.error (.ioError "Failed to obtain XBAT access token."), 1)
    | some _ =>
      (handleMeasurementResponse parseCsv resp2 jobsCall nodesCall job_id, 1)
  else
    (handleMeasurementResponse parseCsv resp1 jobsCall nodesCall job_id, 0)

end XBATDataSource

/-! ## Theorems -/

/-- C1: the spec (and the function's own docstring, and its callers in
`examples/`) say a job id matching zero rows fails with `NotFoundError`
(`ValueError`); but the `raise ValueError` sits inside the `try` whose
blanket `except Exception` handler re-raises it as a generic `IOError`.
Evaluating the code at the failing input — a readable one-row CSV and a
job id absent from it — shows the `IOError`. -/
theorem csvFetch_notfound_wrapped_as_ioerror :
    CSVDataSource.fetchJobData "data.csv"
      (.ok [⟨"43", "cpu", "Branching", "branch rate", [1, 2]⟩]) "42" =
      .error (.ioError
        "Failed to read CSV file data.csv: Job ID \x2742\x27 not found in data.csv") := by
  rfl

/-- C4 counterexample: the claim says construction raises exactly when
the node identifier fails to be non-empty exactly when the level is
`"node"` — hence that supplying a node with level `"job"` raises. The
code accepts that combination. -/
theorem xbatValidate_node_with_other_level_accepted :
    (XBATDataSource.validateArgs "" "" "job" "n1").isOkB = true := by
  rfl

/-- C4 (amended): construction raises a configuration error
(`ValueError`) exactly when the metric filter is non-empty while the
group filter is empty, or the level is `"node"` while the node
identifier is empty.  A node supplied with a level other than `"node"`
is accepted. -/
theorem xbatValidateArgs_spec (group metric level node : String) :
    (∃ msg, XBATDataSource.validateArgs group metric level node =
        .error (.valueError msg)) ↔
      (group = "" ∧ metric ≠ "") ∨ (level = "node" ∧ node = "") := by
  unfold XBATDataSource.validateArgs
  split_ifs with h1 h2
  · simp only [Bool.and_eq_true, beq_iff_eq, bne_iff_ne] at h1
    simp [h1]
  · simp only [Bool.and_eq_true, beq_iff_eq, bne_iff_ne] at h2
    simp [h2]
  · simp only [Bool.and_eq_true, beq_iff_eq, bne_iff_ne, not_and] at h1 h2
    constructor
    · rintro ⟨msg, hmsg⟩
      cases hmsg
    · rintro (⟨hg, hm⟩ | ⟨hl, hn⟩)
      · exact absurd hm (h1 hg)
      · exact absurd hn (h2 hl)

/-- C2: `get_metric` raises `NotFoundError` (`ValueError`) exactly when
no row matches the (group, metric, trace?) filter, and otherwise
returns the interval values of the first matching row in original row
order — an ambiguous query yields that stable first row, never an
error. -/
theorem getMetric_spec (dm : DataManager) (g m : String) (tr : Option String) :
    ((∃ msg, dm.getMetric g m tr = .error (.valueError msg)) ↔
      dm.job_data.filter (DataModel.matchesSpec g m tr) = []) ∧
    (∀ r rest, dm.job_data.filter (DataModel.matchesSpec g m tr) = r :: rest →
      dm.getMetric g m tr = .ok r.values) := by
  cases h : dm.job_data.filter (DataModel.matchesSpec g m tr) with
  | nil =>
    have hg : dm.getMetric g m tr = .error (.valueError
        s!"Metric not found: group=\x27{g}\x27, metric=\x27{m}\x27") := by
      unfold DataManager.getMetric
      rw [h]
    refine ⟨⟨fun _ => rfl, fun _ => ⟨_, hg⟩⟩, ?_⟩
    intro r rest hr
    exact List.noConfusion hr
  | cons q qs =>
    have hg : dm.getMetric g m tr = .ok q.values := by
      unfold DataManager.getMetric
      rw [h]
    refine ⟨⟨?_, ?_⟩, ?_⟩
    · rintro ⟨msg, hmsg⟩
      rw [hg] at hmsg
      exact Except.noConfusion hmsg
    · intro hnil
      exact List.noConfusion hnil
    · intro r rest hr
      injection hr with h1 h2
      subst h1
      exact hg

/-- C2 witness: on a table with two rows matching (cpu, B) under
distinct traces, the trace-omitted query returns the first row's
values. -/
theorem getMetric_spec_witness :
    DataManager.getMetric
      ⟨[⟨"42", "cpu", "B", "t1", [1, 2]⟩, ⟨"42", "cpu", "B", "t2", [3]⟩], none⟩
      "cpu" "B" none = .ok [1, 2] :=
  (getMetric_spec
      ⟨[⟨"42", "cpu", "B", "t1", [1, 2]⟩, ⟨"42", "cpu", "B", "t2", [3]⟩], none⟩
      "cpu" "B" none).2
    ⟨"42", "cpu", "B", "t1", [1, 2]⟩ [⟨"42", "cpu", "B", "t2", [3]⟩] (by rfl)

/-- C5 counterexample: the claim says the job-identifier comparison is
case-insensitive, so fetching `"a42"` from a file whose only row has
`jobId = "A42"` would return that row; the code's exact string
comparison filters it out and the fetch fails instead. -/
theorem csvFetch_case_counterexample :
    (CSVDataSource.fetchJobData "jobs.csv"
      (.ok [⟨"A42", "cpu", "Branching", "branch rate", [1]⟩]) "a42").isOkB
      = false := by
  rfl

/-- C5 (amended): `fetch_job_data` compares the job-identifier column
to the requested job id case-SENSITIVELY, as exact strings: a
successful fetch wraps precisely the rows whose identifier is equal to
the argument, and a row differing only in letter case is excluded. -/
theorem csvFetch_filters_exact (filePath : String) (rows : List Row)
    (job_id : String) (dm : DataManager)
    (h : CSVDataSource.fetchJobData filePath (.ok rows) job_id = .ok dm) :
    dm.job_data = rows.filter (fun r => r.jobId == job_id) ∧
      dm.job_context = none := by
  obtain ⟨jd, jc⟩ := dm
  by_cases hfil : rows.filter (fun r => r.jobId == job_id) = []
  · exfalso
    simp only [CSVDataSource.fetchJobData, CSVDataSource.fetchJobDataBody,
      hfil, if_pos] at h
    exact Except.noConfusion h
  · simp only [CSVDataSource.fetchJobData, CSVDataSource.fetchJobDataBody,
      if_neg hfil] at h
    injection h with h1
    injection h1 with h2 h3
    exact ⟨h2.symm, h3.symm⟩

/-- C5 amended-claim witness: an exact-case match is returned, wrapping
exactly the filtered rows with no context. -/
theorem csvFetch_filters_exact_witness :
    CSVDataSource.fetchJobData "jobs.csv"
        (.ok [⟨"A42", "cpu", "B", "t", [1]⟩]) "A42" =
      .ok ⟨[⟨"A42", "cpu", "B", "t", [1]⟩], none⟩ ∧
    ([⟨"A42", "cpu", "B", "t", [1]⟩] : List Row).filter
        (fun r => r.jobId == "A42") = [⟨"A42", "cpu", "B", "t", [1]⟩] := by
  have h : CSVDataSource.fetchJobData "jobs.csv"
      (.ok [⟨"A42", "cpu", "B", "t", [1]⟩]) "A42" =
      .ok ⟨[⟨"A42", "cpu", "B", "t", [1]⟩], none⟩ := by rfl
  have h2 := csvFetch_filters_exact "jobs.csv"
    [⟨"A42", "cpu", "B", "t", [1]⟩] "A42"
    ⟨[⟨"A42", "cpu", "B", "t", [1]⟩], none⟩ h
  exact ⟨h, by rw [← h2.1]⟩

/-- Membership in the keep-first deduplication: an element survives iff
it occurs in the list and is not already seen. -/
theorem mem_dropDupAux [DecidableEq α] (l : List α) (seen : List α) (a : α) :
    a ∈ dropDupAux seen l ↔ a ∈ l ∧ a ∉ seen := by
  induction l generalizing seen with
  | nil => simp [dropDupAux]
  | cons x xs ih =>
    by_cases hx : x ∈ seen
    · rw [dropDupAux, if_pos hx, ih]
      constructor
      · rintro ⟨h1, h2⟩
        exact ⟨List.mem_cons_of_mem _ h1, h2⟩
      · rintro ⟨h1, h2⟩
        rcases List.mem_cons.1 h1 with rfl | h1
        · exact absurd hx h2
        · exact ⟨h1, h2⟩
    · rw [dropDupAux, if_neg hx]
      constructor
      · intro hmem
        rcases List.mem_cons.1 hmem with rfl | hmem
        · exact ⟨List.mem_cons_self .., hx⟩
        · rw [ih] at hmem
          refine ⟨List.mem_cons_of_mem _ hmem.1, fun hs => hmem.2 ?_⟩
          exact List.mem_cons_of_mem _ hs
      · rintro ⟨h1, h2⟩
        rcases List.mem_cons.1 h1 with rfl | h1
        · exact List.mem_cons_self ..
        · by_cases hax : a = x
          · subst hax
            exact List.mem_cons_self ..
          · refine List.mem_cons_of_mem _ ?_
            rw [ih]
            refine ⟨h1, fun hs => ?_⟩
            rcases List.mem_cons.1 hs with h | h
            · exact hax h
            · exact h2 h

/-- The keep-first deduplication never has duplicates. -/
theorem nodup_dropDupAux [DecidableEq α] (l : List α) (seen : List α) :
    (dropDupAux seen l).Nodup := by
  induction l generalizing seen with
  | nil => simp [dropDupAux]
  | cons x xs ih =>
    by_cases hx : x ∈ seen
    · rw [dropDupAux, if_pos hx]
      exact ih seen
    · rw [dropDupAux, if_neg hx]
      refine List.nodup_cons.2 ⟨fun hmem => ?_, ih _⟩
      rw [mem_dropDupAux] at hmem
      exact hmem.2 (List.mem_cons_self ..)

/-- The keep-first deduplication is a subsequence of the input (it
keeps surviving elements in their original order). -/
theorem sublist_dropDupAux [DecidableEq α] (l : List α) (seen : List α) :
    List.Sublist (dropDupAux seen l) l := by
  induction l generalizing seen with
  | nil => simp [dropDupAux]
  | cons x xs ih =>
    by_cases hx : x ∈ seen
    · rw [dropDupAux, if_pos hx]
      exact (ih seen).trans (List.sublist_cons_self x xs)
    · rw [dropDupAux, if_neg hx]
      exact (ih (x :: seen)).cons₂ x

/-- C9: `list_available_metrics` returns the (group, metric, trace)
triples of the table with duplicates removed, ordered by first
occurrence (a subsequence of the original triple sequence covering the
same triples): the result has no duplicate triple and at most as many
rows as the table. -/
theorem listAvailableMetrics_spec (dm : DataManager) :
    dm.listAvailableMetrics.Nodup ∧
    List.Sublist dm.listAvailableMetrics
      (dm.job_data.map (fun r => (r.group, r.metric, r.trace))) ∧
    (∀ x, x ∈ dm.listAvailableMetrics ↔
      x ∈ dm.job_data.map (fun r => (r.group, r.metric, r.trace))) ∧
    dm.listAvailableMetrics.length ≤ dm.job_data.length := by
  refine ⟨nodup_dropDupAux _ _, sublist_dropDupAux _ _, ?_, ?_⟩
  · intro x
    rw [DataManager.listAvailableMetrics, dropDuplicates, mem_dropDupAux]
    simp
  · calc dm.listAvailableMetrics.length
        ≤ (dm.job_data.map (fun r => (r.group, r.metric, r.trace))).length :=
          (sublist_dropDupAux _ _).length_le
      _ = dm.job_data.length := List.length_map ..

/-- Key membership after a dict insertion: the keys are those already
present plus the inserted one. -/
theorem mem_keys_dictInsert (d : List (String × α)) (k : String) (v : α)
    (kq : String) :
    kq ∈ (dictInsert d k v).map Prod.fst ↔
      kq ∈ d.map Prod.fst ∨ kq = k := by
  unfold dictInsert
  by_cases hany : d.any (fun p => p.1 == k) = true
  · rw [if_pos hany]
    have hmap : (d.map (fun p => if p.1 == k then (k, v) else p)).map Prod.fst
        = d.map Prod.fst := by
      rw [List.map_map]
      refine List.map_congr_left ?_
      intro p _
      by_cases hpk : p.1 = k
      · simp [hpk]
      · simp [hpk]
    rw [hmap]
    have hk : k ∈ d.map Prod.fst := by
      rw [List.any_eq_true] at hany
      obtain ⟨p, hp, hpk⟩ := hany
      rw [beq_iff_eq] at hpk
      exact List.mem_map.2 ⟨p, hp, hpk⟩
    constructor
    · exact Or.inl
    · rintro (hh | rfl)
      · exact hh
      · exact hk
  · rw [if_neg hany]
    rw [List.map_append, List.mem_append]
    simp

/-- Keys accumulated by the `get_metrics` fold: those of the initial
dict plus the synthesized keys of the resolvable specs. -/
theorem mem_keys_getMetrics_foldl (dm : DataManager)
    (specs : List DataManager.MetricSpec)
    (init : List (String × List ℚ)) (kq : String) :
    (kq ∈ (specs.foldl
        (fun result s =>
          match dm.getMetric s.group s.metric s.trace with
          | .ok series => dictInsert result (DataManager.synthKey s) series
          | .error _ => result)
        init).map Prod.fst) ↔
      kq ∈ init.map Prod.fst ∨
        ∃ s, s ∈ specs ∧ dm.resolvable s = true ∧
          DataManager.synthKey s = kq := by
  induction specs generalizing init with
  | nil => simp
  | cons s ss ih =>
    rw [List.foldl_cons]
    cases hres : dm.getMetric s.group s.metric s.trace with
    | ok series =>
      have hr : dm.resolvable s = true := by
        unfold DataManager.resolvable
        rw [hres]
        rfl
      rw [ih, mem_keys_dictInsert]
      constructor
      · rintro ((hh | rfl) | ⟨q, hq1, hq2, hq3⟩)
        · exact Or.inl hh
        · exact Or.inr ⟨s, List.mem_cons_self .., hr, rfl⟩
        · exact Or.inr ⟨q, List.mem_cons_of_mem _ hq1, hq2, hq3⟩
      · rintro (hh | ⟨q, hq1, hq2, hq3⟩)
        · exact Or.inl (Or.inl hh)
        · rcases List.mem_cons.1 hq1 with rfl | hq1
          · exact Or.inl (Or.inr hq3.symm)
          · exact Or.inr ⟨q, hq1, hq2, hq3⟩
    | error e =>
      have hr : dm.resolvable s = false := by
        unfold DataManager.resolvable
        rw [hres]
        rfl
      rw [ih]
      constructor
      · rintro (hh | ⟨q, hq1, hq2, hq3⟩)
        · exact Or.inl hh
        · exact Or.inr ⟨q, List.mem_cons_of_mem _ hq1, hq2, hq3⟩
      · rintro (hh | ⟨q, hq1, hq2, hq3⟩)
        · exact Or.inl hh
        · rcases List.mem_cons.1 hq1 with rfl | hq1
          · rw [hr] at hq2
            cases hq2
          · exact Or.inr ⟨q, hq1, hq2, hq3⟩

/-- The `get_metrics` fold leaves the dict unchanged when every spec is
skipped. -/
theorem getMetrics_foldl_skip_all (dm : DataManager)
    (specs : List DataManager.MetricSpec)
    (init : List (String × List ℚ))
    (h : ∀ s ∈ specs, dm.resolvable s = false) :
    specs.foldl
        (fun result s =>
          match dm.getMetric s.group s.metric s.trace with
          | .ok series => dictInsert result (DataManager.synthKey s) series
          | .error _ => result)
        init = init := by
  induction specs generalizing init with
  | nil => rfl
  | cons s ss ih =>
    rw [List.foldl_cons]
    cases hres : dm.getMetric s.group s.metric s.trace with
    | ok series =>
      exfalso
      have hr := h s (List.mem_cons_self ..)
      unfold DataManager.resolvable at hr
      rw [hres] at hr
      cases hr
    | error e =>
      exact ih init (fun q hq => h q (List.mem_cons_of_mem _ hq))

/-- C3: `get_metrics` never raises — it is a total function of the
table and spec list — each spec whose lookup raises `NotFoundError` is
silently skipped, the key set of the result equals the synthesized keys
of exactly the resolvable specs, and when no spec resolves the result
is the empty mapping, not an error. -/
theorem getMetrics_spec (dm : DataManager)
    (specs : List DataManager.MetricSpec) :
    (∀ kq, kq ∈ (dm.getMetrics specs).map Prod.fst ↔
      ∃ s, s ∈ specs ∧ dm.resolvable s = true ∧
        DataManager.synthKey s = kq) ∧
    ((∀ s ∈ specs, dm.resolvable s = false) → dm.getMetrics specs = []) := by
  constructor
  · intro kq
    unfold DataManager.getMetrics
    rw [mem_keys_getMetrics_foldl]
    simp
  · intro hall
    unfold DataManager.getMetrics
    exact getMetrics_foldl_skip_all dm specs [] hall

/-- C3 witness: one resolvable spec (trace key synthesized with spaces
replaced) and one unresolvable spec — the key set is exactly the
resolvable one's; a list of only unresolvable specs yields the empty
mapping. -/
theorem getMetrics_spec_witness :
    "cpu_B_branch_rate" ∈
      (DataManager.getMetrics ⟨[⟨"42", "cpu", "B", "branch rate", [1]⟩], none⟩
        [⟨"cpu", "B", some "branch rate"⟩, ⟨"gpu", "X", none⟩]).map Prod.fst ∧
    DataManager.getMetrics ⟨[⟨"42", "cpu", "B", "branch rate", [1]⟩], none⟩
      [⟨"gpu", "X", none⟩] = [] := by
  constructor
  · exact ((getMetrics_spec ⟨[⟨"42", "cpu", "B", "branch rate", [1]⟩], none⟩
      [⟨"cpu", "B", some "branch rate"⟩, ⟨"gpu", "X", none⟩]).1
        "cpu_B_branch_rate").mpr
      ⟨⟨"cpu", "B", some "branch rate"⟩, List.mem_cons_self .., by decide,
        by decide⟩
  · exact (getMetrics_spec ⟨[⟨"42", "cpu", "B", "branch rate", [1]⟩], none⟩
      [⟨"gpu", "X", none⟩]).2 (by decide)

/-- A running minimum is at most its initial value. -/
theorem foldl_min_le_init (vs : List ℚ) (v : ℚ) :
    vs.foldl min v ≤ v := by
  induction vs generalizing v with
  | nil => exact le_refl v
  | cons y ys ih => exact le_trans (ih (min v y)) (min_le_left v y)

/-- A running minimum is at most every list element. -/
theorem foldl_min_le_mem (vs : List ℚ) (v x : ℚ) (hx : x ∈ vs) :
    vs.foldl min v ≤ x := by
  induction vs generalizing v with
  | nil => cases hx
  | cons y ys ih =>
    rcases List.mem_cons.1 hx with rfl | hmem
    · exact le_trans (foldl_min_le_init ys (min v x)) (min_le_right v x)
    · exact ih (min v y) hmem

/-- A running maximum is at least its initial value. -/
theorem init_le_foldl_max (vs : List ℚ) (v : ℚ) :
    v ≤ vs.foldl max v := by
  induction vs generalizing v with
  | nil => exact le_refl v
  | cons y ys ih => exact le_trans (le_max_left v y) (ih (max v y))

/-- A running maximum is at least every list element. -/
theorem mem_le_foldl_max (vs : List ℚ) (v x : ℚ) (hx : x ∈ vs) :
    x ≤ vs.foldl max v := by
  induction vs generalizing v with
  | nil => cases hx
  | cons y ys ih =>
    rcases List.mem_cons.1 hx with rfl | hmem
    · exact le_trans (le_max_right v x) (init_le_foldl_max ys (max v x))
    · exact ih (max v y) hmem

/-- A uniform lower bound on the elements bounds the sum from below. -/
theorem mul_length_le_sum (l : List ℚ) (m : ℚ) (h : ∀ x ∈ l, m ≤ x) :
    m * l.length ≤ l.sum := by
  induction l with
  | nil => simp
  | cons x xs ih =>
    have hx := h x (List.mem_cons_self ..)
    have hxs := ih (fun y hy => h y (List.mem_cons_of_mem _ hy))
    rw [List.sum_cons, List.length_cons]
    push_cast
    nlinarith

/-- A uniform upper bound on the elements bounds the sum from above. -/
theorem sum_le_mul_length (l : List ℚ) (m : ℚ) (h : ∀ x ∈ l, x ≤ m) :
    l.sum ≤ m * l.length := by
  induction l with
  | nil => simp
  | cons x xs ih =>
    have hx := h x (List.mem_cons_self ..)
    have hxs := ih (fun y hy => h y (List.mem_cons_of_mem _ hy))
    rw [List.sum_cons, List.length_cons]
    push_cast
    nlinarith

/-- C8: when at least one node reports the benchmark key,
`get_benchmark` under `"min"`, `"mean"` and `"max"` yields values in
nondecreasing order (nodes lacking the key are ignored — `benchValues`
only collects reporting nodes); when no node reports it, every
aggregate choice yields the absent-marker `None`, not zero and not an
error. -/
theorem getBenchmark_order (ctx : JobContext) (key : String) :
    (JobContext.benchValues ctx key ≠ [] →
      ∃ a b c, JobContext.getBenchmark ctx key "min" = some a ∧
        JobContext.getBenchmark ctx key "mean" = some b ∧
        JobContext.getBenchmark ctx key "max" = some c ∧
        a ≤ b ∧ b ≤ c) ∧
    (JobContext.benchValues ctx key = [] →
      ∀ aggregate, JobContext.getBenchmark ctx key aggregate = none) := by
  constructor
  · intro hne
    cases hv : JobContext.benchValues ctx key with
    | nil => exact absurd hv hne
    | cons v vs =>
      have hlen : (0 : ℚ) < ((v :: vs).length : ℚ) := by
        rw [List.length_cons]
        push_cast
        positivity
      have hmin : ∀ x ∈ v :: vs, vs.foldl min v ≤ x := by
        intro x hx
        rcases List.mem_cons.1 hx with rfl | hx
        · exact foldl_min_le_init vs x
        · exact foldl_min_le_mem vs v x hx
      have hmax : ∀ x ∈ v :: vs, x ≤ vs.foldl max v := by
        intro x hx
        rcases List.mem_cons.1 hx with rfl | hx
        · exact init_le_foldl_max vs x
        · exact mem_le_foldl_max vs v x hx
      refine ⟨vs.foldl min v, (v :: vs).sum / ((v :: vs).length : ℚ),
        vs.foldl max v, ?_, ?_, ?_, ?_, ?_⟩
      · unfold JobContext.getBenchmark
        rw [hv]
        rfl
      · unfold JobContext.getBenchmark
        rw [hv]
        rfl
      · unfold JobContext.getBenchmark
        rw [hv]
        rfl
      · rw [le_div_iff₀ hlen]
        exact mul_length_le_sum (v :: vs) _ hmin
      · rw [div_le_iff₀ hlen]
        exact sum_le_mul_length (v :: vs) _ hmax
  · intro h0 aggregate
    unfold JobContext.getBenchmark
    rw [h0]

/-- C8 witness: two nodes reporting `bw` as 2 and 4 — min 2, mean 3,
max 4 — and a key nobody reports yields `None`. -/
theorem getBenchmark_order_witness :
    (∃ a b c,
      JobContext.getBenchmark
        ⟨"1", [], [], [("h1", ⟨none, none, some [("bw", 2)], none⟩),
          ("h2", ⟨none, none, some [("bw", 4)], none⟩)]⟩ "bw" "min" = some a ∧
      JobContext.getBenchmark
        ⟨"1", [], [], [("h1", ⟨none, none, some [("bw", 2)], none⟩),
          ("h2", ⟨none, none, some [("bw", 4)], none⟩)]⟩ "bw" "mean" = some b ∧
      JobContext.getBenchmark
        ⟨"1", [], [], [("h1", ⟨none, none, some [("bw", 2)], none⟩),
          ("h2", ⟨none, none, some [("bw", 4)], none⟩)]⟩ "bw" "max" = some c ∧
      a ≤ b ∧ b ≤ c) ∧
    JobContext.getBenchmark
      ⟨"1", [], [], [("h1", ⟨none, none, some [("bw", 2)], none⟩),
        ("h2", ⟨none, none, some [("bw", 4)], none⟩)]⟩ "other" "max" = none := by
  constructor
  · exact (getBenchmark_order
      ⟨"1", [], [], [("h1", ⟨none, none, some [("bw", 2)], none⟩),
        ("h2", ⟨none, none, some [("bw", 4)], none⟩)]⟩ "bw").1 (by decide)
  · exact (getBenchmark_order
      ⟨"1", [], [], [("h1", ⟨none, none, some [("bw", 2)], none⟩),
        ("h2", ⟨none, none, some [("bw", 4)], none⟩)]⟩ "other").2
      (by decide) "max"

/-- C10: any aggregate string other than `"min"` and `"max"` — not only
`"mean"` — falls through to the mean of the reported values; no error
and no argument rejection. -/
theorem getBenchmark_default_mean (ctx : JobContext) (key aggregate : String)
    (h1 : aggregate ≠ "min") (h2 : aggregate ≠ "max")
    (hne : JobContext.benchValues ctx key ≠ []) :
    JobContext.getBenchmark ctx key aggregate =
      some ((JobContext.benchValues ctx key).sum /
        ((JobContext.benchValues ctx key).length : ℚ)) := by
  cases hv : JobContext.benchValues ctx key with
  | nil => exact absurd hv hne
  | cons v vs =>
    have b1 : (aggregate == "min") = false := by
      rw [beq_eq_false_iff_ne]
      exact h1
    have b2 : (aggregate == "max") = false := by
      rw [beq_eq_false_iff_ne]
      exact h2
    unfold JobContext.getBenchmark
    rw [hv, b1, b2]
    rfl

/-- C10 witness: the misspelled aggregate `"median"` still yields the
mean of the single reported value. -/
theorem getBenchmark_default_mean_witness :
    JobContext.getBenchmark
      ⟨"1", [], [], [("h1", ⟨none, none, some [("bw", 4)], none⟩)]⟩
      "bw" "median" = some 4 := by
  have h := getBenchmark_default_mean
    ⟨"1", [], [], [("h1", ⟨none, none, some [("bw", 4)], none⟩)]⟩
    "bw" "median" (by decide) (by decide) (by decide)
  have hb : JobContext.benchValues
      ⟨"1", [], [], [("h1", ⟨none, none, some [("bw", 4)], none⟩)]⟩ "bw"
      = [4] := rfl
  rw [h, hb]
  norm_num

/-- C6: if the measurement request returns HTTP 401, exactly one fresh
token is requested and the request is retried exactly once (the
outcome is entirely that of the retry response); a second 401 is not
refreshed again but propagates as a generic `IOError` via the non-200
path; a retry returning 200 with parseable CSV makes the fetch
succeed. -/
theorem xbatFetch_401_single_refresh
    (parseCsv : String → Except PyErr (List Row))
    (resp1 resp2 : HttpResponse) (tok : String)
    (jobsCall : Except PyErr (JsonResp JobsPayload))
    (nodesCall : Except PyErr (JsonResp (List (String × NodeRaw))))
    (job_id : String) (h401 : resp1.status = 401) :
    (XBATDataSource.fetchJobData parseCsv resp1 resp2 (some tok)
      jobsCall nodesCall job_id).2 = 1 ∧
    (XBATDataSource.fetchJobData parseCsv resp1 resp2 (some tok)
      jobsCall nodesCall job_id).1 =
      XBATDataSource.handleMeasurementResponse parseCsv resp2
        jobsCall nodesCall job_id ∧
    (resp2.status = 401 →
      ∃ msg, (XBATDataSource.fetchJobData parseCsv resp1 resp2 (some tok)
        jobsCall nodesCall job_id).1 = .error (.ioError msg)) ∧
    (∀ rows, resp2.status = 200 → parseCsv resp2.text = .ok rows →
      (XBATDataSource.fetchJobData parseCsv resp1 resp2 (some tok)
        jobsCall nodesCall job_id).1 =
        .ok ⟨rows, XBATDataSource.fetchJobContext jobsCall nodesCall job_id⟩) := by
  have hred : XBATDataSource.fetchJobData parseCsv resp1 resp2 (some tok)
      jobsCall nodesCall job_id =
      (XBATDataSource.handleMeasurementResponse parseCsv resp2
        jobsCall nodesCall job_id, 1) := by
    unfold XBATDataSource.fetchJobData
    rw [if_pos h401]
  rw [hred]
  refine ⟨rfl, rfl, ?_, ?_⟩
  · intro h2
    show ∃ msg, XBATDataSource.handleMeasurementResponse parseCsv resp2
      jobsCall nodesCall job_id = .error (.ioError msg)
    unfold XBATDataSource.handleMeasurementResponse
    rw [h2, if_neg (by norm_num), if_pos (by norm_num)]
    exact ⟨_, rfl⟩
  · intro rows h200 hp
    show XBATDataSource.handleMeasurementResponse parseCsv resp2
      jobsCall nodesCall job_id =
      .ok ⟨rows, XBATDataSource.fetchJobContext jobsCall nodesCall job_id⟩
    unfold XBATDataSource.handleMeasurementResponse
    rw [h200, if_neg (by norm_num), if_neg (by norm_num), hp]

/-- C6 witness: first response 401, retry 200 with parseable CSV — one
token grant, fetch succeeds (context enrichment degraded to `none` by a
failing jobs endpoint). -/
theorem xbatFetch_401_single_refresh_witness :
    (XBATDataSource.fetchJobData (fun _ => .ok [⟨"7", "cpu", "B", "t", [1]⟩])
      ⟨401, ""⟩ ⟨200, "body"⟩ (some "tok") (.error (.otherError "net"))
      (.error (.otherError "net")) "7").2 = 1 ∧
    (XBATDataSource.fetchJobData (fun _ => .ok [⟨"7", "cpu", "B", "t", [1]⟩])
      ⟨401, ""⟩ ⟨200, "body"⟩ (some "tok") (.error (.otherError "net"))
      (.error (.otherError "net")) "7").1 =
      .ok ⟨[⟨"7", "cpu", "B", "t", [1]⟩], none⟩ := by
  have h := xbatFetch_401_single_refresh
    (fun _ => .ok [⟨"7", "cpu", "B", "t", [1]⟩]) ⟨401, ""⟩ ⟨200, "body"⟩
    "tok" (.error (.otherError "net")) (.error (.otherError "net")) "7" rfl
  refine ⟨h.1, ?_⟩
  rw [h.2.2.2 [⟨"7", "cpu", "B", "t", [1]⟩] rfl rfl]
  rfl


/-- Building a `JobContext` from an empty raw hardware response leaves
`node_hardware` empty: no referenced hash can be looked up. -/
theorem fromXbat_raw_nil (job_id : String) (e : JobEntry) :
    (JobContext.fromXbat job_id e []).node_hardware = [] := by
  show e.nodes.foldl _ [] = []
  apply List.foldl_fixed'
  intro p
  show (match p.2 with
    | none => ([] : List (String × NodeInfo))
    | some h =>
      if h != "" then
        match ([] : List (String × NodeRaw)).lookup h with
        | none => []
        | some nr => dictInsert [] h (extractNodeInfo nr)
      else []) = []
  cases p.2 with
  | none => rfl
  | some h => simp

/-- `_find_job_entry` on a raised transport exception propagates it. -/
theorem findJobEntry_raised (e : PyErr) (job_id : String) :
    XBATDataSource.findJobEntry (.error e) job_id = .error e := by
  rfl

/-- `_find_job_entry` on a non-200 listing status returns `None`. -/
theorem findJobEntry_non200 (resp : JsonResp JobsPayload) (job_id : String)
    (hst : resp.status ≠ 200) :
    XBATDataSource.findJobEntry (.ok resp) job_id = .ok none := by
  show (if resp.status ≠ 200 then (.ok none : Except PyErr (Option JobEntry))
    else match resp.json with
      | none => .error (.valueError "JSONDecodeError")
      | some payload => .ok ((payload.data.getD []).find?
          (fun e => pyStr e.jobId == job_id))) = .ok none
  rw [if_pos hst]

/-- `_find_job_entry` on a malformed 200 body raises the JSON decoding
error. -/
theorem findJobEntry_malformed (resp : JsonResp JobsPayload)
    (job_id : String) (hst : resp.status = 200) (hjson : resp.json = none) :
    XBATDataSource.findJobEntry (.ok resp) job_id =
      .error (.valueError "JSONDecodeError") := by
  show (if resp.status ≠ 200 then (.ok none : Except PyErr (Option JobEntry))
    else match resp.json with
      | none => .error (.valueError "JSONDecodeError")
      | some payload => .ok ((payload.data.getD []).find?
          (fun e => pyStr e.jobId == job_id))) = _
  rw [if_neg (fun hc => hc hst), hjson]

/-- `_fetch_node_hardware` on a raised transport exception propagates
it. -/
theorem fetchNodeHardware_raised (e : PyErr) :
    XBATDataSource.fetchNodeHardware (.error e) = .error e := by
  rfl

/-- `_fetch_node_hardware` on a non-200 status returns the empty
mapping, not an error. -/
theorem fetchNodeHardware_non200 (resp : JsonResp (List (String × NodeRaw)))
    (hst : resp.status ≠ 200) :
    XBATDataSource.fetchNodeHardware (.ok resp) = .ok [] := by
  show (if resp.status ≠ 200 then (.ok [] : Except PyErr (List (String × NodeRaw)))
    else match resp.json with
      | none => .error (.valueError "JSONDecodeError")
      | some m => .ok m) = .ok []
  rw [if_pos hst]

/-- `_fetch_node_hardware` on a malformed 200 body raises the JSON
decoding error. -/
theorem fetchNodeHardware_malformed (resp : JsonResp (List (String × NodeRaw)))
    (hst : resp.status = 200) (hjson : resp.json = none) :
    XBATDataSource.fetchNodeHardware (.ok resp) =
      .error (.valueError "JSONDecodeError") := by
  show (if resp.status ≠ 200 then (.ok [] : Except PyErr (List (String × NodeRaw)))
    else match resp.json with
      | none => .error (.valueError "JSONDecodeError")
      | some m => .ok m) = _
  rw [if_neg (fun hc => hc hst), hjson]

/-- The `try` body of `_fetch_job_context` when the entry lookup
raises. -/
theorem fetchJobContextBody_err (jobsCall : Except PyErr (JsonResp JobsPayload))
    (nodesCall : Except PyErr (JsonResp (List (String × NodeRaw))))
    (job_id : String) (e : PyErr)
    (hf : XBATDataSource.findJobEntry jobsCall job_id = .error e) :
    XBATDataSource.fetchJobContextBody jobsCall nodesCall job_id = .error e := by
  unfold XBATDataSource.fetchJobContextBody
  rw [hf]

/-- The `try` body of `_fetch_job_context` when the job is absent from
the listing. -/
theorem fetchJobContextBody_none (jobsCall : Except PyErr (JsonResp JobsPayload))
    (nodesCall : Except PyErr (JsonResp (List (String × NodeRaw))))
    (job_id : String)
    (hf : XBATDataSource.findJobEntry jobsCall job_id = .ok none) :
    XBATDataSource.fetchJobContextBody jobsCall nodesCall job_id = .ok none := by
  unfold XBATDataSource.fetchJobContextBody
  rw [hf]

/-- The `try` body of `_fetch_job_context` once the entry is located:
empty hash set short-circuits to `None`, otherwise the hardware fetch
decides the outcome. -/
theorem fetchJobContextBody_entry
    (jobsCall : Except PyErr (JsonResp JobsPayload))
    (nodesCall : Except PyErr (JsonResp (List (String × NodeRaw))))
    (job_id : String) (entry : JobEntry)
    (hf : XBATDataSource.findJobEntry jobsCall job_id = .ok (some entry)) :
    XBATDataSource.fetchJobContextBody jobsCall nodesCall job_id =
      (if XBATDataSource.nodeHashSet entry = [] then .ok none
       else match XBATDataSource.fetchNodeHardware nodesCall with
        | .error e => .error e
        | .ok raw => .ok (some (JobContext.fromXbat job_id entry raw))) := by
  unfold XBATDataSource.fetchJobContextBody
  rw [hf]

/-- `_fetch_job_context` maps a raising body to `None`. -/
theorem fetchJobContext_of_body_err
    (jobsCall : Except PyErr (JsonResp JobsPayload))
    (nodesCall : Except PyErr (JsonResp (List (String × NodeRaw))))
    (job_id : String) (e : PyErr)
    (hb : XBATDataSource.fetchJobContextBody jobsCall nodesCall job_id =
      .error e) :
    XBATDataSource.fetchJobContext jobsCall nodesCall job_id = none := by
  unfold XBATDataSource.fetchJobContext
  rw [hb]

/-- `_fetch_job_context` returns the body's value when it does not
raise. -/
theorem fetchJobContext_of_body_ok
    (jobsCall : Except PyErr (JsonResp JobsPayload))
    (nodesCall : Except PyErr (JsonResp (List (String × NodeRaw))))
    (job_id : String) (v : Option JobContext)
    (hb : XBATDataSource.fetchJobContextBody jobsCall nodesCall job_id =
      .ok v) :
    XBATDataSource.fetchJobContext jobsCall nodesCall job_id = v := by
  unfold XBATDataSource.fetchJobContext
  rw [hb]

/-- C7 counterexample: a job-listing hit with one truthy node hash but
a node-hardware endpoint answering non-200 — the enrichment yields a
populated (hardware-less) `JobContext`, not the claimed null one. -/
theorem xbatContext_non200_nodes_counterexample :
    (XBATDataSource.fetchJobContext
      (.ok ⟨200, some ⟨some [⟨some "7", none, none, none, none, none, none,
        none, [("n1", some "h1")]⟩]⟩⟩)
      (.ok ⟨500, some []⟩) "7").isSome = true := by
  rfl

/-- C7 (amended): context enrichment never fails the overall fetch —
once the measurement CSV parses, the fetch returns `ok` carrying the
best-effort context — and each enumerated job-listing failure (raised
exception, non-200 status, malformed JSON, job absent, no truthy node
hashes) as well as the nodes endpoint raising or returning malformed
JSON at 200 yields a null `JobContext`; a nodes endpoint answering
non-200, however, yields a `JobContext` with empty `node_hardware`
rather than the null context. -/
theorem xbatContext_best_effort
    (parseCsv : String → Except PyErr (List Row))
    (jobsCall : Except PyErr (JsonResp JobsPayload))
    (nodesCall : Except PyErr (JsonResp (List (String × NodeRaw))))
    (job_id : String) :
    (∀ r rows, r.status = 200 → parseCsv r.text = .ok rows →
      XBATDataSource.handleMeasurementResponse parseCsv r jobsCall
        nodesCall job_id =
        .ok ⟨rows, XBATDataSource.fetchJobContext jobsCall nodesCall job_id⟩) ∧
    (∀ e, jobsCall = .error e →
      XBATDataSource.fetchJobContext jobsCall nodesCall job_id = none) ∧
    (∀ resp, jobsCall = .ok resp → resp.status ≠ 200 →
      XBATDataSource.fetchJobContext jobsCall nodesCall job_id = none) ∧
    (∀ resp, jobsCall = .ok resp → resp.status = 200 → resp.json = none →
      XBATDataSource.fetchJobContext jobsCall nodesCall job_id = none) ∧
    (XBATDataSource.findJobEntry jobsCall job_id = .ok none →
      XBATDataSource.fetchJobContext jobsCall nodesCall job_id = none) ∧
    (∀ entry, XBATDataSource.findJobEntry jobsCall job_id = .ok (some entry) →
      XBATDataSource.nodeHashSet entry = [] →
      XBATDataSource.fetchJobContext jobsCall nodesCall job_id = none) ∧
    (∀ e, nodesCall = .error e →
      XBATDataSource.fetchJobContext jobsCall nodesCall job_id = none) ∧
    (∀ resp, nodesCall = .ok resp → resp.status = 200 → resp.json = none →
      XBATDataSource.fetchJobContext jobsCall nodesCall job_id = none) ∧
    (∀ entry resp,
      XBATDataSource.findJobEntry jobsCall job_id = .ok (some entry) →
      XBATDataSource.nodeHashSet entry ≠ [] →
      nodesCall = .ok resp → resp.status ≠ 200 →
      XBATDataSource.fetchJobContext jobsCall nodesCall job_id =
        some (JobContext.fromXbat job_id entry []) ∧
      (JobContext.fromXbat job_id entry []).node_hardware = []) := by
  refine ⟨?_, ?_, ?_, ?_, ?_, ?_, ?_, ?_, ?_⟩
  · intro r rows hst hp
    unfold XBATDataSource.handleMeasurementResponse
    rw [hst, if_neg (by norm_num), if_neg (by norm_num), hp]
  · intro e he
    subst he
    exact fetchJobContext_of_body_err _ _ _ e
      (fetchJobContextBody_err _ _ _ e (findJobEntry_raised e job_id))
  · intro resp hok hst
    subst hok
    exact fetchJobContext_of_body_ok _ _ _ none
      (fetchJobContextBody_none _ _ _ (findJobEntry_non200 resp job_id hst))
  · intro resp hok hst hjson
    subst hok
    exact fetchJobContext_of_body_err _ _ _ _
      (fetchJobContextBody_err _ _ _ _
        (findJobEntry_malformed resp job_id hst hjson))
  · intro hf
    exact fetchJobContext_of_body_ok _ _ _ none
      (fetchJobContextBody_none _ _ _ hf)
  · intro entry hf hh
    refine fetchJobContext_of_body_ok _ _ _ none ?_
    rw [fetchJobContextBody_entry _ _ _ entry hf, if_pos hh]
  · intro e he
    cases hfind : XBATDataSource.findJobEntry jobsCall job_id with
    | error err =>
      exact fetchJobContext_of_body_err _ _ _ err
        (fetchJobContextBody_err _ _ _ err hfind)
    | ok o =>
      cases o with
      | none =>
        exact fetchJobContext_of_body_ok _ _ _ none
          (fetchJobContextBody_none _ _ _ hfind)
      | some entry =>
        by_cases hh : XBATDataSource.nodeHashSet entry = []
        · refine fetchJobContext_of_body_ok _ _ _ none ?_
          rw [fetchJobContextBody_entry _ _ _ entry hfind, if_pos hh]
        · refine fetchJobContext_of_body_err _ _ _ e ?_
          rw [fetchJobContextBody_entry _ _ _ entry hfind, if_neg hh,
            he, fetchNodeHardware_raised e]
  · intro resp hok hst hjson
    cases hfind : XBATDataSource.findJobEntry jobsCall job_id with
    | error err =>
      exact fetchJobContext_of_body_err _ _ _ err
        (fetchJobContextBody_err _ _ _ err hfind)
    | ok o =>
      cases o with
      | none =>
        exact fetchJobContext_of_body_ok _ _ _ none
          (fetchJobContextBody_none _ _ _ hfind)
      | some entry =>
        by_cases hh : XBATDataSource.nodeHashSet entry = []
        · refine fetchJobContext_of_body_ok _ _ _ none ?_
          rw [fetchJobContextBody_entry _ _ _ entry hfind, if_pos hh]
        · refine fetchJobContext_of_body_err _ _ _
            (.valueError "JSONDecodeError") ?_
          rw [fetchJobContextBody_entry _ _ _ entry hfind, if_neg hh,
            hok, fetchNodeHardware_malformed resp hst hjson]
  · intro entry resp hf hh hok hst
    refine ⟨?_, fromXbat_raw_nil job_id entry⟩
    refine fetchJobContext_of_body_ok _ _ _ _ ?_
    rw [fetchJobContextBody_entry _ _ _ entry hf, if_neg hh,
      hok, fetchNodeHardware_non200 resp hst]

/-- C7 amended-claim witness: a raised connection error on the
job-listing call degrades the context to `none`. -/
theorem xbatContext_best_effort_witness :
    XBATDataSource.fetchJobContext
      (.error (.otherError "connection refused"))
      (.ok ⟨200, some []⟩) "7" = none :=
  (xbatContext_best_effort (fun _ => .ok [])
    (.error (.otherError "connection refused"))
    (.ok ⟨200, some []⟩) "7").2.1 (.otherError "connection refused") rfl
